import Mathlib

/-!
Shallow embedding of the chilliLCARS greenhouse controller (src/sensors.py,
src/logger.py, src/relays.py, src/config.py, src/webserver.py, src/database.py)
and proofs about its soil-moisture conversion, calibration loading, irrigation
decision, watering action, relay auditing and polling loop.

Python floats are modelled as rationals; `round(x, n)` is modelled as rounding
`x * 10^n` to the nearest integer (Mathlib's `round`, which rounds halves up,
where Python rounds halves to even; no value appearing in the properties below
sits on a rounding tie, so the difference is immaterial here).
-/

namespace Chilli

/-- Calibration profile held in soil_calibration.json: dry and wet reference
voltages (sensors.py, load_calibration). -/
structure CalibrationProfile where
  dry_v : ℚ
  wet_v : ℚ
deriving DecidableEq

/-- Model of Python `round(q, 3)`. -/
def roundTo3 (q : ℚ) : ℚ := (round (q * 1000) : ℤ) / 1000

/-- Model of Python `round(q, 2)`. -/
def roundTo2 (q : ℚ) : ℚ := (round (q * 100) : ℤ) / 100

/-- Normalization step of read_soil_percent_from_voltage (sensors.py lines
148-149): `if dry_v < wet_v: dry_v, wet_v = wet_v, dry_v`. -/
def normalizeCalib (c : CalibrationProfile) : CalibrationProfile :=
  if c.dry_v < c.wet_v then ⟨c.wet_v, c.dry_v⟩ else c

/-- Embedding of sensors.py read_soil_percent_from_voltage (lines 133-170):
swap the bounds if inverted, return 0 if the span is not positive, return 0 if
the voltage is absent, otherwise the piecewise value (0 above dry_v, 100 below
wet_v, linear in between), clamped to [0, 100] and rounded to 3 decimals.
The calibration profile, loaded from disk by the Python function via
load_calibration, is passed as an argument. -/
def read_soil_percent_from_voltage (voltage : Option ℚ) (calib : CalibrationProfile) : ℚ :=
  let c := normalizeCalib calib
  if c.dry_v - c.wet_v ≤ 0 then 0
  else
    match voltage with
    | none => 0
    | some v =>
      roundTo3 (max 0 (min 100
        (if c.dry_v ≤ v then 0
         else if v ≤ c.wet_v then 100
         else (c.dry_v - v) * 100 / (c.dry_v - c.wet_v))))

/-- Possible states of the calibration file, as distinguished by the branches
of sensors.py load_calibration (lines 72-95). -/
inductive CalibFile where
  /-- os.path.exists(CALIB_FILE) is false. -/
  | missing
  /-- open, read or json.load raises (corrupt or unreadable file). -/
  | unreadable
  /-- JSON object with numeric "dry_v" and "wet_v" fields. -/
  | voltSchema (d w : ℚ)
  /-- JSON object with "dry_v"/"wet_v" fields whose float() conversion raises. -/
  | voltSchemaBad
  /-- Legacy raw-count schema with "dry" and "wet" fields and no voltage fields. -/
  | legacyRaw (d w : ℤ)
  /-- Any other JSON object lacking both field pairs. -/
  | otherSchema
deriving DecidableEq

/-- Embedding of sensors.py load_calibration (lines 72-95): a total function
(the Python function catches every exception), returning the stored voltage
bounds when present and the documented defaults dry_v=1.60, wet_v=0.20 in
every other case. -/
def load_calibration : CalibFile → CalibrationProfile
  | .voltSchema d w => ⟨d, w⟩
  | .missing => ⟨1.60, 0.20⟩
  | .unreadable => ⟨1.60, 0.20⟩
  | .voltSchemaBad => ⟨1.60, 0.20⟩
  | .legacyRaw _ _ => ⟨1.60, 0.20⟩
  | .otherSchema => ⟨1.60, 0.20⟩

/-- After normalization the wet bound never exceeds the dry bound. -/
lemma normalizeCalib_wet_le_dry (c : CalibrationProfile) :
    (normalizeCalib c).wet_v ≤ (normalizeCalib c).dry_v := by
  unfold normalizeCalib
  split_ifs with h
  · exact le_of_lt h
  · exact not_lt.mp h

/-- Rounding to 3 decimals is monotone. -/
lemma roundTo3_mono {x y : ℚ} (h : x ≤ y) : roundTo3 x ≤ roundTo3 y := by
  unfold roundTo3
  have hr : round (x * 1000) ≤ round (y * 1000) := by
    rw [round_eq, round_eq]
    exact Int.floor_mono (by linarith)
  have hq : ((round (x * 1000) : ℤ) : ℚ) ≤ ((round (y * 1000) : ℤ) : ℚ) := by
    exact_mod_cast hr
  linarith

/-- Rounding to 3 decimals preserves nonnegativity. -/
lemma roundTo3_nonneg {x : ℚ} (h : 0 ≤ x) : 0 ≤ roundTo3 x := by
  unfold roundTo3
  have hr : (0 : ℤ) ≤ round (x * 1000) := by
    rw [round_eq]
    exact Int.le_floor.mpr (by push_cast; linarith)
  have hq : (0 : ℚ) ≤ ((round (x * 1000) : ℤ) : ℚ) := by exact_mod_cast hr
  linarith

/-- Rounding to 3 decimals preserves the upper bound 100. -/
lemma roundTo3_le_100 {x : ℚ} (h : x ≤ 100) : roundTo3 x ≤ 100 := by
  unfold roundTo3
  have hr : round (x * 1000) ≤ 100000 := by
    rw [round_eq]
    have h2 : (⌊x * 1000 + 1 / 2⌋ : ℚ) ≤ x * 1000 + 1 / 2 := Int.floor_le _
    have h3 : ((⌊x * 1000 + 1 / 2⌋ : ℤ) : ℚ) < 100001 := by linarith
    have h4 : (⌊x * 1000 + 1 / 2⌋ : ℤ) < 100001 := by exact_mod_cast h3
    omega
  have hq : ((round (x * 1000) : ℤ) : ℚ) ≤ 100000 := by exact_mod_cast hr
  linarith

/-- The un-rounded piecewise value of the percent conversion, before clamping
and rounding, is antitone in the voltage (for a normalized profile with a
positive span). -/
lemma percent_core_antitone {d w v1 v2 : ℚ} (hs : 0 < d - w) (h12 : v1 ≤ v2) :
    (if d ≤ v2 then (0 : ℚ) else if v2 ≤ w then 100 else (d - v2) * 100 / (d - w)) ≤
    (if d ≤ v1 then (0 : ℚ) else if v1 ≤ w then 100 else (d - v1) * 100 / (d - w)) := by
  split_ifs <;>
    first
      | linarith
      | (apply div_nonneg <;> nlinarith)
      | (rw [div_le_iff₀ hs]; linarith)
      | (rw [div_le_div_iff₀ hs hs]; nlinarith)

/-- When the normalized span is not positive the conversion returns 0. -/
lemma percent_span_nonpos (v : Option ℚ) (c : CalibrationProfile)
    (h : (normalizeCalib c).dry_v - (normalizeCalib c).wet_v ≤ 0) :
    read_soil_percent_from_voltage v c = 0 := by
  simp only [read_soil_percent_from_voltage]
  rw [if_pos h]

/-- An absent voltage converts to 0. -/
lemma percent_none (c : CalibrationProfile) :
    read_soil_percent_from_voltage none c = 0 := by
  simp only [read_soil_percent_from_voltage]
  split_ifs <;> rfl

/-- Unfolding of the conversion on a present voltage when the span is positive. -/
lemma percent_some (v : ℚ) (c : CalibrationProfile)
    (hs : 0 < (normalizeCalib c).dry_v - (normalizeCalib c).wet_v) :
    read_soil_percent_from_voltage (some v) c =
      roundTo3 (max 0 (min 100
        (if (normalizeCalib c).dry_v ≤ v then 0
         else if v ≤ (normalizeCalib c).wet_v then 100
         else ((normalizeCalib c).dry_v - v) * 100 /
           ((normalizeCalib c).dry_v - (normalizeCalib c).wet_v)))) := by
  simp only [read_soil_percent_from_voltage]
  rw [if_neg (not_le.mpr hs)]

/-- C3: the percent conversion returns 0 on an absent voltage or a non-positive
normalized span; otherwise it is 0 at and above dry_v, 100 at and below wet_v,
and the clamped, 3-decimal-rounded linear interpolation strictly in between;
the normalized dry bound maps to 0 and the normalized wet bound to 100 exactly,
and for the default profile (dry_v=1.60, wet_v=0.20) voltage 0.90 maps to 50. -/
theorem percent_conversion_spec :
    (∀ c : CalibrationProfile, read_soil_percent_from_voltage none c = 0) ∧
    (∀ (c : CalibrationProfile) (v : Option ℚ),
      (normalizeCalib c).dry_v - (normalizeCalib c).wet_v ≤ 0 →
      read_soil_percent_from_voltage v c = 0) ∧
    (∀ (c : CalibrationProfile) (v : ℚ),
      0 < (normalizeCalib c).dry_v - (normalizeCalib c).wet_v →
      ((normalizeCalib c).dry_v ≤ v → read_soil_percent_from_voltage (some v) c = 0) ∧
      (v ≤ (normalizeCalib c).wet_v → read_soil_percent_from_voltage (some v) c = 100) ∧
      ((normalizeCalib c).wet_v < v → v < (normalizeCalib c).dry_v →
        read_soil_percent_from_voltage (some v) c =
          roundTo3 (max 0 (min 100 (((normalizeCalib c).dry_v - v) * 100 /
            ((normalizeCalib c).dry_v - (normalizeCalib c).wet_v)))))) ∧
    (∀ c : CalibrationProfile,
      0 < (normalizeCalib c).dry_v - (normalizeCalib c).wet_v →
      read_soil_percent_from_voltage (some (normalizeCalib c).dry_v) c = 0 ∧
      read_soil_percent_from_voltage (some (normalizeCalib c).wet_v) c = 100) ∧
    read_soil_percent_from_voltage (some 0.90) ⟨1.60, 0.20⟩ = 50 := by
  refine ⟨percent_none, fun c v h => percent_span_nonpos v c h, ?_, ?_, ?_⟩
  · intro c v hs
    refine ⟨?_, ?_, ?_⟩
    · intro hd
      rw [percent_some v c hs, if_pos hd]
      norm_num [roundTo3, round_eq]
    · intro hw
      rw [percent_some v c hs, if_neg (by linarith), if_pos hw]
      norm_num [roundTo3, round_eq]
    · intro h1 h2
      rw [percent_some v c hs, if_neg (not_le.mpr h2), if_neg (not_le.mpr h1)]
  · intro c hs
    constructor
    · rw [percent_some _ c hs, if_pos le_rfl]
      norm_num [roundTo3, round_eq]
    · rw [percent_some _ c hs, if_neg (by linarith), if_pos le_rfl]
      norm_num [roundTo3, round_eq]
  · norm_num [read_soil_percent_from_voltage, normalizeCalib, roundTo3, round_eq]

/-- Witness for percent_conversion_spec at the default profile. -/
theorem percent_conversion_spec_witness :
    read_soil_percent_from_voltage (some 2) ⟨1, 1⟩ = 0 ∧
    read_soil_percent_from_voltage (some 1.60) ⟨1.60, 0.20⟩ = 0 ∧
    read_soil_percent_from_voltage (some 0.20) ⟨1.60, 0.20⟩ = 100 := by
  refine ⟨?_, ?_, ?_⟩
  · exact percent_conversion_spec.2.1 ⟨1, 1⟩ (some 2) (by norm_num [normalizeCalib])
  · exact (percent_conversion_spec.2.2.1 ⟨1.60, 0.20⟩ 1.60
      (by norm_num [normalizeCalib])).1 (by norm_num [normalizeCalib])
  · exact (percent_conversion_spec.2.2.1 ⟨1.60, 0.20⟩ 0.20
      (by norm_num [normalizeCalib])).2.1 (by norm_num [normalizeCalib])

/-- C4: the percent conversion is monotonically non-increasing in the voltage
and always lies in [0, 100], for every calibration profile. -/
theorem percent_antitone_bounded :
    (∀ (c : CalibrationProfile) (v1 v2 : ℚ), v1 ≤ v2 →
      read_soil_percent_from_voltage (some v2) c ≤
        read_soil_percent_from_voltage (some v1) c) ∧
    (∀ (c : CalibrationProfile) (v : Option ℚ),
      0 ≤ read_soil_percent_from_voltage v c ∧
      read_soil_percent_from_voltage v c ≤ 100) := by
  constructor
  · intro c v1 v2 h12
    rcases le_or_lt ((normalizeCalib c).dry_v - (normalizeCalib c).wet_v) 0 with hs | hs
    · rw [percent_span_nonpos _ c hs, percent_span_nonpos _ c hs]
    · rw [percent_some v1 c hs, percent_some v2 c hs]
      exact roundTo3_mono (max_le_max le_rfl (min_le_min le_rfl (percent_core_antitone hs h12)))
  · intro c v
    rcases le_or_lt ((normalizeCalib c).dry_v - (normalizeCalib c).wet_v) 0 with hs | hs
    · rw [percent_span_nonpos _ c hs]
      norm_num
    · match v with
      | none => rw [percent_none]; norm_num
      | some x =>
        rw [percent_some x c hs]
        constructor
        · exact roundTo3_nonneg (le_max_left _ _)
        · exact roundTo3_le_100 (max_le (by norm_num) (min_le_left _ _))

/-- Witness for percent_antitone_bounded at the default profile. -/
theorem percent_antitone_bounded_witness :
    read_soil_percent_from_voltage (some 0.90) ⟨1.60, 0.20⟩ ≤
      read_soil_percent_from_voltage (some 0.50) ⟨1.60, 0.20⟩ :=
  percent_antitone_bounded.1 ⟨1.60, 0.20⟩ 0.50 0.90 (by norm_num)

/-- C5: a profile stored with dry_v < wet_v converts every voltage exactly as
the swapped profile does (the bounds are normalized by swapping before use). -/
theorem percent_swap_profile (c : CalibrationProfile) (h : c.dry_v < c.wet_v)
    (v : Option ℚ) :
    read_soil_percent_from_voltage v c =
      read_soil_percent_from_voltage v ⟨c.wet_v, c.dry_v⟩ := by
  have h1 : normalizeCalib c = ⟨c.wet_v, c.dry_v⟩ := by
    unfold normalizeCalib; rw [if_pos h]
  have h2 : normalizeCalib ⟨c.wet_v, c.dry_v⟩ = ⟨c.wet_v, c.dry_v⟩ := by
    unfold normalizeCalib
    exact if_neg (lt_asymm h)
  simp only [read_soil_percent_from_voltage, h1, h2]

/-- Witness for percent_swap_profile on an inverted default profile. -/
theorem percent_swap_profile_witness :
    read_soil_percent_from_voltage (some 0.90) ⟨0.20, 1.60⟩ =
      read_soil_percent_from_voltage (some 0.90) ⟨1.60, 0.20⟩ :=
  percent_swap_profile ⟨0.20, 1.60⟩ (by norm_num) (some 0.90)

/-- Watering threshold in percent (logger.py line 27). -/
def WATERING_THRESHOLD : ℚ := 40.0

/-- Watering hold duration in seconds (logger.py line 28). -/
def WATERING_DURATION : ℕ := 10

/-- Watering cooldown in seconds (logger.py line 29). -/
def WATERING_COOLDOWN : ℚ := 3600

/-- Possible states of last_watering.txt, as distinguished by the branches of
logger.py should_water (lines 53-61). -/
inductive WateringFile where
  /-- os.path.exists(LAST_WATERING_FILE) is false. -/
  | missing
  /-- The file exists but open, read or float() raises. -/
  | unreadable
  /-- The file exists and its stripped content parses as this number. -/
  | timestamp (ts : ℚ)
deriving DecidableEq

/-- Embedding of logger.py should_water (lines 45-63). The last-watering file
state and the current clock are passed explicitly; in the Python function the
file is read from disk and `now` is time.time(). An unreadable file falls
through the bare `except Exception: pass` to the final `return True`. -/
def should_water (soil_percent : Option ℚ) (file : WateringFile) (now : ℚ) : Bool :=
  match soil_percent with
  | none => false
  | some sp =>
    if WATERING_THRESHOLD ≤ sp then false
    else
      match file with
      | .timestamp last_ts => if now - last_ts < WATERING_COOLDOWN then false else true
      | .missing => true
      | .unreadable => true

/-- GPIO pin levels. Relays are LOW-trigger: LOW energizes (relays.py line 15). -/
inductive PinLevel where
  | low
  | high
deriving DecidableEq

/-- State of the GPIO outputs, by BCM pin number. -/
def GpioState : Type := ℕ → PinLevel

/-- BCM pin of relay 1 (config.py line 21). -/
def RELAY1 : ℕ := 12

/-- BCM pin of relay 2, the irrigation pump (config.py line 22). -/
def RELAY2 : ℕ := 16

/-- Embedding of GPIO.output on one pin. -/
def GPIO_output (pin : ℕ) (level : PinLevel) (g : GpioState) : GpioState :=
  fun p => if p = pin then level else g p

/-- Embedding of relays.py set_relay_state (lines 12-21): write LOW to energize
and HIGH to de-energize; no state read-back, no audit record. -/
def set_relay_state (relay : ℕ) (state : Bool) (g : GpioState) : GpioState :=
  GPIO_output relay (if state then PinLevel.low else PinLevel.high) g

/-- Embedding of relays.py get_relay_state (lines 23-33): a relay reads as ON
exactly when its pin is LOW. -/
def get_relay_state (relay : ℕ) (g : GpioState) : Bool :=
  match g relay with
  | PinLevel.low => true
  | PinLevel.high => false

/-- State touched by the watering action: the GPIO outputs and the
last-watering persistence file. -/
structure WateringWorld where
  gpio : GpioState
  lastWateringFile : WateringFile

/-- Whether the fixed 10-second hold (`time.sleep(WATERING_DURATION)`) runs to
completion or an error or signal interrupts it. -/
inductive HoldOutcome where
  | completes
  | interrupted
deriving DecidableEq

/-- What the name RELAY2 resolves to in logger.py's module scope. The module
imports `init_relays, test_relays, set_relay_state, RELAY1` from relays
(logger.py line 10) and no relay constants from config (line 11), so RELAY2
is unbound there: evaluating it raises NameError. -/
def logger_RELAY2 : Option ℕ := none

/-- Embedding of logger.py perform_watering (lines 66-74). The body is the
statement sequence energize RELAY2, hold, de-energize RELAY2, persist the
timestamp, with no try/finally — but its first actuation statement
`set_relay_state(RELAY2, True)` must resolve the name RELAY2, which is
unbound in logger.py (`logger_RELAY2`), so every execution raises NameError
there, before any relay write. The result pairs the exception status with
the world state at exit; the branches below the name lookup translate the
remaining statements, unreachable in the source as written. -/
def perform_watering (outcome : HoldOutcome) (now : ℚ) (w : WateringWorld) :
    Except String Unit × WateringWorld :=
  match logger_RELAY2 with
  | none => (.error "NameError: name RELAY2 is not defined", w)
  | some pin =>
    let w1 : WateringWorld := { w with gpio := set_relay_state pin true w.gpio }
    match outcome with
    | .interrupted => (.error "error during hold", w1)
    | .completes =>
      let w2 : WateringWorld := { w1 with gpio := set_relay_state pin false w1.gpio }
      (.ok (), { w2 with lastWateringFile := .timestamp now })

/-- C6: the watering decision is False on an absent reading, False at or above
the 40 percent threshold, False within the 3600-second cooldown of a recorded
watering, and True otherwise; with soil_percent 35 and no record it is True,
and retrying within the hour it is False. -/
theorem should_water_spec :
    (∀ (file : WateringFile) (now : ℚ), should_water none file now = false) ∧
    (∀ (sp : ℚ) (file : WateringFile) (now : ℚ), WATERING_THRESHOLD ≤ sp →
      should_water (some sp) file now = false) ∧
    (∀ sp ts now : ℚ, sp < WATERING_THRESHOLD → now - ts < WATERING_COOLDOWN →
      should_water (some sp) (.timestamp ts) now = false) ∧
    (∀ sp ts now : ℚ, sp < WATERING_THRESHOLD → WATERING_COOLDOWN ≤ now - ts →
      should_water (some sp) (.timestamp ts) now = true) ∧
    (∀ sp now : ℚ, sp < WATERING_THRESHOLD →
      should_water (some sp) .missing now = true) ∧
    (∀ sp now : ℚ, sp < WATERING_THRESHOLD →
      should_water (some sp) .unreadable now = true) ∧
    should_water (some 35) .missing 1000 = true ∧
    should_water (some 35) (.timestamp 1000) 2000 = false := by
  refine ⟨fun _ _ => rfl, ?_, ?_, ?_, ?_, ?_, ?_, ?_⟩
  · intro sp file now h
    simp [should_water, if_pos h]
  · intro sp ts now h1 h2
    simp [should_water, if_neg (not_le.mpr h1), if_pos h2]
  · intro sp ts now h1 h2
    simp [should_water, if_neg (not_le.mpr h1), if_neg (not_lt.mpr h2)]
  · intro sp now h
    simp [should_water, if_neg (not_le.mpr h)]
  · intro sp now h
    simp [should_water, if_neg (not_le.mpr h)]
  · norm_num [should_water, WATERING_THRESHOLD]
  · norm_num [should_water, WATERING_THRESHOLD, WATERING_COOLDOWN]

/-- Witness for should_water_spec on the cooldown scenario of the spec. -/
theorem should_water_spec_witness :
    should_water (some 50) .missing 0 = false ∧
    should_water (some 35) (.timestamp 0) 100 = false ∧
    should_water (some 35) (.timestamp 0) 3600 = true ∧
    should_water (some 35) .missing 0 = true :=
  ⟨should_water_spec.2.1 50 .missing 0 (by norm_num [WATERING_THRESHOLD]),
   should_water_spec.2.2.1 35 0 100 (by norm_num [WATERING_THRESHOLD])
     (by norm_num [WATERING_COOLDOWN]),
   should_water_spec.2.2.2.1 35 0 3600 (by norm_num [WATERING_THRESHOLD])
     (by norm_num [WATERING_COOLDOWN]),
   should_water_spec.2.2.2.2.1 35 0 (by norm_num [WATERING_THRESHOLD])⟩

/-- C10: an existing but unparsable last-watering file falls through the bare
except to the final return True, so the cooldown check is silently skipped and
the decision behaves exactly as if no watering had ever been recorded. -/
theorem corrupt_watering_file_ignored :
    (∀ sp now : ℚ, sp < WATERING_THRESHOLD →
      should_water (some sp) .unreadable now = true) ∧
    (∀ (sp : Option ℚ) (now : ℚ),
      should_water sp .unreadable now = should_water sp .missing now) := by
  constructor
  · intro sp now h
    simp [should_water, if_neg (not_le.mpr h)]
  · intro sp now
    match sp with
    | none => rfl
    | some x => rfl

/-- Witness for corrupt_watering_file_ignored at soil_percent 35. -/
theorem corrupt_watering_file_ignored_witness :
    should_water (some 35) .unreadable 5000 = true :=
  corrupt_watering_file_ignored.1 35 5000 (by norm_num [WATERING_THRESHOLD])

/-- A GPIO state with every output HIGH, i.e. both relays de-energized (the
state init_relays establishes). -/
def gpioAllOff : GpioState := fun _ => PinLevel.high

/-- A GPIO state in which the irrigation pump relay is energized (pin 16 LOW),
as a manual web toggle of relay 2 leaves it. -/
def gpioPumpOn : GpioState := fun p => if p = RELAY2 then PinLevel.low else PinLevel.high

/-- C2 counterexample: an execution of the watering action entered with the
pump relay energized exits — abnormally, via the NameError its first statement
raises — with the relay still energized: no relay-off write happens on this
(the only possible) exit path, whether or not the hold would be interrupted. -/
theorem perform_watering_no_relay_off_write :
    (perform_watering .interrupted 12345 ⟨gpioPumpOn, .missing⟩).1 =
      .error "NameError: name RELAY2 is not defined" ∧
    get_relay_state RELAY2
      (perform_watering .interrupted 12345 ⟨gpioPumpOn, .missing⟩).2.gpio = true :=
  ⟨rfl, rfl⟩

/-- C2 amended: every execution of perform_watering raises NameError at its
first actuation statement, because logger.py never imports RELAY2; no relay
write — neither the energize nor the de-energize — and no last_watered_at
persist ever occurs, and the GPIO and file state are returned unchanged on the
single, exceptional exit path. -/
theorem perform_watering_raises_name_error (outcome : HoldOutcome) (now : ℚ)
    (w : WateringWorld) :
    perform_watering outcome now w =
      (.error "NameError: name RELAY2 is not defined", w) := rfl

/-- Structured content of a DS18B20 two-line transcript as read_ds18b20_temp
inspects it (sensors.py lines 58-66): whether the stripped first line ends in
the "YES" checksum marker, and the numeric field after "t=" on the second
line when present and parsable (float() on anything else raises, which the
function catches). -/
structure DsTranscript where
  crc_ok : Bool
  t_field : Option ℤ
deriving DecidableEq

/-- Outcomes of the low-level driver operations of one acquisition cycle. An
`Except.error` value stands for the driver raising an exception with that
message; a read function that itself returns `Except.error` lets that
exception escape its boundary. -/
structure SensorEnv where
  /-- Whether config.i2c initialized (config.py lines 8-14); None otherwise. -/
  shared_i2c : Bool
  /-- ADS1115 constructor plus double-sampled read on the shared bus
  (sensors.py _read_ads_once via read_soil_raw_shared). -/
  ads_shared : Except String (ℤ × ℚ)
  /-- Fresh bus acquisition, ADS1115 constructor and double-sampled read
  (read_soil_raw_fresh). -/
  ads_fresh : Except String (ℤ × ℚ)
  /-- Adafruit_DHT.read_retry: (humidity, temperature), which is (None, None)
  on full retry failure, or an import/driver exception. -/
  dht : Except String (Option (ℚ × ℚ))
  /-- Whether config.device_file found a DS18B20 device (config.py 34-39). -/
  ds_device_present : Bool
  /-- Opening and reading the w1_slave transcript. -/
  ds_transcript : Except String DsTranscript
  /-- BH1750 write plus two-byte block read: the two data bytes. -/
  bh1750 : Except String (ℕ × ℕ)

/-- True when the computation models an exception escaping the function. -/
def raisesExc {α : Type} : Except String α → Bool
  | .error _ => true
  | .ok _ => false

/-- Embedding of sensors.py read_soil_raw_shared (lines 13-24): returns
(None, None) when the shared bus never initialized, but wraps the ADS read in
no try/except, so a driver exception propagates to the caller. -/
def read_soil_raw_shared (env : SensorEnv) : Except String (Option ℤ × Option ℚ) :=
  if !env.shared_i2c then .ok (none, none)
  else
    match env.ads_shared with
    | .ok rv => .ok (some rv.1, some rv.2)
    | .error e => .error e

/-- Embedding of sensors.py read_soil_raw_fresh (lines 27-46): the whole body
sits in try/except, so every driver exception is converted to (None, None). -/
def read_soil_raw_fresh (env : SensorEnv) : Except String (Option ℤ × Option ℚ) :=
  match env.ads_fresh with
  | .ok rv => .ok (some rv.1, some rv.2)
  | .error _ => .ok (none, none)

/-- Embedding of the DHT22 read (sensors.py test_dht lines 207-219, and the
identical try/except block of logger.py run_logger lines 104-109): read_retry
inside try/except, full failure or exception giving (None, None). Returns
(humidity, temperature) in the tuple order of run_logger. -/
def read_air_temp_humidity (env : SensorEnv) : Except String (Option ℚ × Option ℚ) :=
  match env.dht with
  | .error _ => .ok (none, none)
  | .ok none => .ok (none, none)
  | .ok (some ht) => .ok (some ht.1, some ht.2)

/-- Embedding of sensors.py read_ds18b20_temp (lines 49-69): absent device
file gives None; the whole read and parse sit in try/except; a transcript
without the YES marker or without a parsable t= field gives None; otherwise
the embedded millidegree value divided by 1000. -/
def read_ds18b20_temp (env : SensorEnv) : Except String (Option ℚ) :=
  if !env.ds_device_present then .ok none
  else
    match env.ds_transcript with
    | .error _ => .ok none
    | .ok tr =>
      if !tr.crc_ok then .ok none
      else
        match tr.t_field with
        | some t => .ok (some ((t : ℚ) / 1000))
        | none => .ok none

/-- Embedding of sensors.py read_bh1750_lux (lines 188-204): the whole body
sits in try/except; on success the two data bytes combine big-endian, divide
by 1.2 and round to 2 decimals. -/
def read_bh1750_lux (env : SensorEnv) : Except String (Option ℚ) :=
  match env.bh1750 with
  | .error _ => .ok none
  | .ok d => .ok (some (roundTo2 ((((d.1 <<< 8) ||| d.2 : ℕ) : ℚ) / 1.2)))

/-- A cycle in which the shared bus is up but the ADS1115 read raises. -/
def envBusFault : SensorEnv where
  shared_i2c := true
  ads_shared := .error "ads1115 conversion timeout"
  ads_fresh := .ok (17750, 1.11)
  dht := .ok (some (55, 23))
  ds_device_present := true
  ds_transcript := .ok ⟨true, some 21500⟩
  bh1750 := .ok (1, 134)

/-- C7 counterexample: in Shared mode a driver error during the ADS read is
not caught, so the exception propagates past the function boundary instead of
being converted to an absent value. -/
theorem read_soil_raw_shared_propagates :
    raisesExc (read_soil_raw_shared envBusFault) = true := rfl

/-- C7 amended: the Fresh-mode moisture read, the air temperature/humidity
read, the soil temperature read and the illuminance read convert every driver
error to an absent value and never raise; the Shared-mode moisture read only
returns absent when the shared bus handle is uninitialized, and otherwise
propagates driver exceptions. -/
theorem sensor_reads_error_handling (env : SensorEnv) :
    raisesExc (read_soil_raw_fresh env) = false ∧
    raisesExc (read_air_temp_humidity env) = false ∧
    raisesExc (read_ds18b20_temp env) = false ∧
    raisesExc (read_bh1750_lux env) = false ∧
    (env.shared_i2c = false → read_soil_raw_shared env = .ok (none, none)) := by
  refine ⟨?_, ?_, ?_, ?_, ?_⟩
  · unfold read_soil_raw_fresh
    match env.ads_fresh with
    | .ok rv => rfl
    | .error _ => rfl
  · unfold read_air_temp_humidity
    match env.dht with
    | .error _ => rfl
    | .ok none => rfl
    | .ok (some _) => rfl
  · unfold read_ds18b20_temp
    repeat' first
      | rfl
      | split
  · unfold read_bh1750_lux
    match env.bh1750 with
    | .error _ => rfl
    | .ok _ => rfl
  · intro h
    unfold read_soil_raw_shared
    rw [h]
    rfl

/-- Witness for sensor_reads_error_handling on a cycle without a shared bus. -/
theorem sensor_reads_error_handling_witness :
    read_soil_raw_shared { envBusFault with shared_i2c := false } = .ok (none, none) :=
  (sensor_reads_error_handling { envBusFault with shared_i2c := false }).2.2.2.2 rfl

/-- A row of the relay_log audit table (database.py ensure_relay_log_table,
insert_relay_event; timestamp string omitted from the model). -/
structure RelayTransition where
  relay_name : String
  action : String
  source : String
deriving DecidableEq

/-- State the relay-toggle endpoint touches: the GPIO outputs and the
relay_log table. -/
structure WebState where
  gpio : GpioState
  relay_log : List RelayTransition

/-- Embedding of webserver.py api_relay_toggle (lines 217-233): resolve the
pin from the relay number, write the requested state with set_relay_state,
then unconditionally insert one relay_log row for the call — the current pin
state is never consulted. A relay number other than 1 or 2 makes getattr
raise AttributeError, which the handler catches and turns into an error
response with no hardware or log write. -/
def api_relay_toggle (relay_num : ℕ) (state : Bool) (s : WebState) : WebState :=
  if relay_num = 1 ∨ relay_num = 2 then
    let pin := if relay_num = 1 then RELAY1 else RELAY2
    { gpio := set_relay_state pin state s.gpio,
      relay_log := s.relay_log ++
        [⟨"RELAY" ++ toString relay_num, if state then "ON" else "OFF", "button"⟩] }
  else s

/-- Folds a sequence of toggle calls over the web state. -/
def run_toggles (calls : List (ℕ × Bool)) (s : WebState) : WebState :=
  calls.foldl (fun st c => api_relay_toggle c.1 c.2 st) s

/-- Web state at startup: both relays de-energized, empty audit table. -/
def initWebState : WebState := ⟨gpioAllOff, []⟩

/-- The spec's audit scenario: ON, ON, OFF on relay 1. -/
def toggleSeq : List (ℕ × Bool) := [(1, true), (1, true), (1, false)]

/-- C8 counterexample: the toggle endpoint records one transition per call
whether or not the relay state changes, so the sequence [ON, ON, OFF] on one
relay leaves three audit records, not two — the redundant repeat is not
suppressed. -/
theorem relay_toggle_on_on_off_three_records :
    (run_toggles toggleSeq initWebState).relay_log.length = 3 := rfl

/-- C8 amended: every toggle call on a valid relay number appends exactly one
RelayTransition regardless of the relay's current state (set_relay_state
itself records nothing and no no-op suppression exists), so [ON, ON, OFF]
yields three records. -/
theorem relay_toggle_records_every_call :
    (∀ (s : WebState) (n : ℕ) (st : Bool), n = 1 ∨ n = 2 →
      (api_relay_toggle n st s).relay_log =
        s.relay_log ++ [⟨"RELAY" ++ toString n, if st then "ON" else "OFF", "button"⟩]) ∧
    (run_toggles toggleSeq initWebState).relay_log =
      [⟨"RELAY1", "ON", "button"⟩, ⟨"RELAY1", "ON", "button"⟩,
       ⟨"RELAY1", "OFF", "button"⟩] := by
  constructor
  · intro s n st h
    unfold api_relay_toggle
    rw [if_pos h]
  · rfl

/-- Witness for relay_toggle_records_every_call on a redundant second ON. -/
theorem relay_toggle_records_every_call_witness :
    (api_relay_toggle 1 true (api_relay_toggle 1 true initWebState)).relay_log =
      (api_relay_toggle 1 true initWebState).relay_log ++
        [⟨"RELAY1", "ON", "button"⟩] :=
  relay_toggle_records_every_call.1 (api_relay_toggle 1 true initWebState) 1 true
    (Or.inl rfl)

/-- A row of the logs table as run_logger inserts it (logger.py lines 121-136;
timestamp string omitted from the model). -/
structure LogRow where
  dht22_air_temp : Option ℚ
  dht22_humidity : Option ℚ
  ds18b20_soil_temp : Option ℚ
  soil_raw : Option ℤ
  soil_voltage : Option ℚ
  soil_percent : Option ℚ
  lux : Option ℚ
  stable : ℕ
deriving DecidableEq

/-- Observable effects of one pass of the run_logger loop. The relayWrite and
wateringDecision constructors are the effects the watering helpers
(set_relay_state inside perform_watering, and a should_water evaluation)
would contribute; the translated loop body never emits them. -/
inductive LogEvent where
  | dbInsert (row : LogRow)
  | cleanupSweep
  | sleep (seconds : ℕ)
  | relayWrite (pin : ℕ) (state : Bool)
  | wateringDecision (result : Bool)
deriving DecidableEq

/-- Embedding of one iteration of the while-loop of logger.py run_logger
(lines 93-148), in source order: read lux, read the soil ADC (fresh bus when
cold_first, shared otherwise), convert to percent, read DHT22, read DS18B20,
round the values, insert the row, prune old images, sleep 2400 s. The
calibration profile the percent conversion loads from disk is passed as an
argument. An uncaught exception from the shared ADS read propagates (aborting
the loop); every other path returns the inserted row and the ordered effect
trace of the iteration. -/
def run_logger_tick (cold_first : Bool) (calib : CalibrationProfile)
    (env : SensorEnv) : Except String (LogRow × List LogEvent) := do
  let lux ← read_bh1750_lux env
  let soil ← if cold_first then read_soil_raw_fresh env else read_soil_raw_shared env
  let soil_percent := read_soil_percent_from_voltage soil.2 calib
  let ht ← read_air_temp_humidity env
  let temp_ds18b20 ← read_ds18b20_temp env
  let row : LogRow :=
    { dht22_air_temp := ht.2.map roundTo3
      dht22_humidity := ht.1.map roundTo3
      ds18b20_soil_temp := temp_ds18b20.map roundTo3
      soil_raw := soil.1
      soil_voltage := soil.2.map roundTo3
      soil_percent := some (roundTo3 soil_percent)
      lux := lux
      stable := 1 }
  return (row, [LogEvent.dbInsert row, LogEvent.cleanupSweep, LogEvent.sleep 2400])

/-- A fault-free acquisition cycle whose soil voltage 1.11 V converts to 35
percent under the default calibration. -/
def envGood : SensorEnv where
  shared_i2c := true
  ads_shared := .ok (17750, 1.11)
  ads_fresh := .ok (17750, 1.11)
  dht := .ok (some (55, 23))
  ds_device_present := true
  ds_transcript := .ok ⟨true, some 21500⟩
  bh1750 := .ok (1, 134)

/-- The row the tick persists for envGood. -/
def rowGood : LogRow where
  dht22_air_temp := some 23
  dht22_humidity := some 55
  ds18b20_soil_temp := some 21.5
  soil_raw := some 17750
  soil_voltage := some 1.11
  soil_percent := some 35
  lux := some 325
  stable := 1

/-- C1: the loop body of run_logger never applies the irrigation decision.
On a cycle whose four reads succeed with soil_percent 35 — below the 40
percent threshold, with no prior watering recorded, so the repository's own
should_water mandates watering — the tick persists the SensorReading and its
complete effect trace holds only the insert, the maintenance sweep and the
sleep: no should_water evaluation and no relay write occur, before or after
the persist. -/
theorem run_logger_tick_skips_irrigation :
    run_logger_tick false ⟨1.60, 0.20⟩ envGood =
      .ok (rowGood, [LogEvent.dbInsert rowGood, LogEvent.cleanupSweep,
        LogEvent.sleep 2400]) ∧
    rowGood.soil_percent = some 35 ∧
    should_water rowGood.soil_percent .missing 0 = true := by
  refine ⟨?_, rfl, ?_⟩
  · show Except.ok _ = _
    norm_num [run_logger_tick, read_bh1750_lux, read_soil_raw_shared,
      read_air_temp_humidity, read_ds18b20_temp, envGood, rowGood, bind, pure,
      Except.bind, read_soil_percent_from_voltage, normalizeCalib, roundTo3,
      roundTo2, round_eq, show (1 <<< 8 ||| 134 : ℕ) = 390 from rfl]
  · norm_num [rowGood, should_water, WATERING_THRESHOLD]

/-- C9: loading the calibration profile is total — the Python function guards
the missing-file case and catches every read, parse and conversion failure —
and returns the stored voltage bounds only for the modern schema; a missing,
unreadable or corrupt file, the legacy raw-count schema, a schema lacking the
voltage fields, and unconvertible voltage fields all yield exactly the
documented defaults dry_v=1.60, wet_v=0.20. -/
theorem load_calibration_spec :
    load_calibration .missing = ⟨1.60, 0.20⟩ ∧
    load_calibration .unreadable = ⟨1.60, 0.20⟩ ∧
    load_calibration .voltSchemaBad = ⟨1.60, 0.20⟩ ∧
    (∀ d w : ℤ, load_calibration (.legacyRaw d w) = ⟨1.60, 0.20⟩) ∧
    load_calibration .otherSchema = ⟨1.60, 0.20⟩ ∧
    (∀ d w : ℚ, load_calibration (.voltSchema d w) = ⟨d, w⟩) :=
  ⟨rfl, rfl, rfl, fun _ _ => rfl, rfl, fun _ _ => rfl⟩

end Chilli
